import Mathlib

set_option autoImplicit false

/-
Shallow embedding of the options-chain subsystem of `pandas/io/data.py`
(the `Options` class and its module-level helpers).

Conventions of the embedding:
- Python floats are modelled as rationals plus a NaN value (`PyFloat`);
  every float produced in this subsystem is either finite or `np.nan`.
- Fallible code returns `Except PyExc _`; `PyExc` mirrors the exception
  classes the source raises or catches, each carrying its message.
- The mutable `Options` instance is an explicit `Session` record threaded
  through the calls; dynamically named instance attributes
  (`_tablesMMYY`, `callsMMYY`, ...) are association lists keyed by the
  attribute-name string the source synthesizes.
- The network/lxml layer (`_parse_url`) is a stubbed fetcher parameter;
  the session counts how many times it is invoked.
-/

/-- Model of a Python float value: a rational number or NaN. -/
inductive PyFloat where
  | nan
  | num (q : ℚ)
deriving DecidableEq, Repr

def PyFloat.isNan : PyFloat → Bool
  | .nan => true
  | .num _ => false

/-- Model of the exception values raised or caught in this subsystem,
each carrying the `str(e)` message. -/
inductive PyExc where
  | indexError (msg : String)
  | valueError (msg : String)
  | typeError (msg : String)
  | attributeError (msg : String)
  | keyError (msg : String)
  | remoteDataError (msg : String)
deriving DecidableEq, Repr

/-- Message of an exception, as `str(e)` renders it in the source's
`"Cannot retrieve Table data {0}".format(str(e))`. -/
def PyExc.message : PyExc → String
  | .indexError m => m
  | .valueError m => m
  | .typeError m => m
  | .attributeError m => m
  | .keyError m => m
  | .remoteDataError m => m

/-- Normalise one Python slice bound against a sequence length: negative
bounds count from the end, out-of-range bounds clamp. -/
def pyBound (len : Nat) (i : Int) : Nat :=
  let j := if i < 0 then i + len else i
  if j < 0 then 0 else if j > (len : Int) then len else j.toNat

/-- Python sequence slicing `l[a:b]`. -/
def pySlice {α : Type} (l : List α) (a b : Int) : List α :=
  let start := pyBound l.length a
  let stop := pyBound l.length b
  (l.drop start).take (stop - start)

/-- Python string slicing `s[a:b]`. -/
def pyStrSlice (s : String) (a b : Int) : String :=
  String.mk (pySlice s.toList a b)

/-- Python string slicing `s[a:]`. -/
def pyStrSliceFrom (s : String) (a : Int) : String :=
  pyStrSlice s a (s.length : Int)

/-- Value of a digit string, most significant first. -/
def digitsToNat (l : List Char) : Nat :=
  l.foldl (fun n c => n * 10 + (c.toNat - '0'.toNat)) 0

/-- Helper of `pyFloatOfString`: parse an unsigned decimal literal, negated
when `neg` is set. The rational `ip.fp` is built as
`(ip * 10^|fp| + fp) / 10^|fp|` over the integers. -/
def pyFloatOfStringAux (neg : Bool) (cs : List Char) : Option ℚ :=
  let ip := cs.takeWhile Char.isDigit
  let rest := cs.dropWhile Char.isDigit
  let signed : Int → Int := fun n => if neg then -n else n
  match rest with
  | [] => if ip.isEmpty then none else some (mkRat (signed (digitsToNat ip)) 1)
  | '.' :: fp =>
    if fp.all Char.isDigit && !(ip.isEmpty && fp.isEmpty) then
      some (mkRat (signed (digitsToNat ip * 10 ^ fp.length + digitsToNat fp)) (10 ^ fp.length))
    else none
  | _ => none

/-- Model of Python `float(s)` on (signed) plain decimal literals, the only
shapes the scraped pages produce in this subsystem; `none` where `float()`
raises `ValueError`. Exotic spellings CPython also accepts (exponents,
`inf`, `nan`, surrounding whitespace) do not occur here and are mapped to
`none`. -/
def pyFloatOfString (s : String) : Option ℚ :=
  match s.toList with
  | '-' :: t => pyFloatOfStringAux true t
  | '+' :: t => pyFloatOfStringAux false t
  | cs => pyFloatOfStringAux false cs

/-- Removal of `,` characters: `val.replace(',', '')`, and the effect of the
`thousands=','` option of `TextParser` on numeric strings. -/
def stripCommas (s : String) : String :=
  String.mk (s.toList.filter (fun c => c ≠ ','))

/-- Python `str.replace('-', '')` on a ticker: removal of every dash. -/
def removeDashes (s : String) : String :=
  String.mk (s.toList.filter (fun c => c ≠ '-'))

/-- Python `str.upper()`. -/
def pyUpper (s : String) : String :=
  String.mk (s.toList.map Char.toUpper)

/-- One markup cell of an options table row, as `_parse_row_values` reads it:
its text content and whether `'neg_arrow' in val.xpath('.//@class')`. -/
structure RawCell where
  text : String
  negArrow : Bool
deriving DecidableEq, Repr

/-- Value held by a parsed table cell: a Python string or float. -/
inductive CellVal where
  | s (v : String)
  | f (v : PyFloat)
deriving DecidableEq, Repr

/-- Source `_parse_row_values` (inside `_unpack`): the text content of the
cell, except that a `neg_arrow`-flagged cell is parsed as a float with commas
removed and negated, falling back to NaN when `float()` raises
`ValueError`. -/
def _parse_row_values (val : RawCell) : CellVal :=
  if val.negArrow then
    match pyFloatOfString (stripCommas val.text) with
    | some q => .f (.num (-q))
    | none => .f .nan
  else .s val.text

/-- A table row with its `th` and `td` cell lists, the two xpath selections
`_unpack` performs. -/
structure RawRow where
  th : List RawCell
  td : List RawCell
deriving DecidableEq, Repr

/-- Which cell kind `_unpack` extracts. -/
inductive CellKind where
  | th
  | td
deriving DecidableEq, Repr

/-- Source `_unpack(row, kind)`. -/
def _unpack (row : RawRow) (kind : CellKind) : List CellVal :=
  (match kind with
   | .th => row.th
   | .td => row.td).map _parse_row_values

/-- NA tokens in effect for `TextParser(..., na_values=['N/A'])`: the explicit
token extends the pandas defaults of the era; only `"N/A"` and `""` occur in
this subsystem. -/
def naTokens : List String := ["N/A", "", "NA", "NULL", "null", "NaN", "nan"]

/-- Per-cell semantics of `TextParser(data, names=header, na_values=['N/A'],
thousands=',').get_chunk()` applied to an `_unpack` result: floats pass
through, NA tokens become NaN, numeric strings (thousands commas removed)
become floats, anything else stays a string. -/
def textParserCell (c : CellVal) : CellVal :=
  match c with
  | .f v => .f v
  | .s t =>
    if naTokens.contains t then .f .nan
    else
      match pyFloatOfString (stripCommas t) with
      | some q => .f (.num q)
      | none => .s t

/-- The combined row-cell parsing rule: `_parse_row_values` followed by the
`TextParser` cell conversion of `_parse_options_data`. -/
def parseCellValue (c : RawCell) : CellVal :=
  textParserCell (_parse_row_values c)

/-- An HTML table as the source walks it: its `tr` rows. -/
structure RawTable where
  rows : List RawRow
deriving DecidableEq, Repr

/-- The frame produced by `_parse_options_data`: header names from the first
row's `th` cells, data from the later rows' `td` cells. -/
structure Frame0 where
  header : List CellVal
  rows : List (List CellVal)
deriving DecidableEq, Repr

/-- Source `_parse_options_data(table)`: `rows[0]` raises `IndexError` on a
row-less table; data cells go through the `TextParser` conversion. -/
def _parse_options_data (table : RawTable) : Except PyExc Frame0 :=
  match table.rows with
  | [] => .error (.indexError "list index out of range")
  | r0 :: rest =>
    .ok { header := _unpack r0 .th,
          rows := rest.map (fun r => (_unpack r .td).map textParserCell) }

/-- A calendar date as `datetime.date` holds it. -/
structure PyDate where
  year : Int
  month : Int
  day : Int
deriving DecidableEq, Repr

def isLeapYear (y : Int) : Bool :=
  (y % 4 == 0 && y % 100 != 0) || y % 400 == 0

def daysInMonth (y m : Int) : Int :=
  if m == 2 then (if isLeapYear y then 29 else 28)
  else if m == 4 || m == 6 || m == 9 || m == 11 then 30
  else 31

/-- Constructor `datetime.date(year, month, day)`: raises `ValueError`
outside the calendar ranges (`MINYEAR = 1`, `MAXYEAR = 9999`). -/
def mkDate (y m d : Int) : Except PyExc PyDate :=
  if 1 ≤ y && y ≤ 9999 && 1 ≤ m && m ≤ 12 && 1 ≤ d && d ≤ daysInMonth y m then
    .ok ⟨y, m, d⟩
  else .error (.valueError "invalid date")

/-- The module-level `CUR_MONTH` / `CUR_YEAR` / `CUR_DAY` values, captured
from `datetime.now()` at import time; threaded as an explicit parameter. -/
structure Clock where
  month : Int
  year : Int
  day : Int
deriving DecidableEq, Repr

/-- Source `Options._try_parse_dates(year, month, expiry)`. The Python guard
is `(month is not None and year is None) or (month is None and year is not
None) and expiry is None`; `and` binds tighter than `or`, so `expiry is None`
only guards the second disjunct. The deprecation warning for month/year
arguments is a non-fatal effect and is not modelled. -/
def _try_parse_dates (cur : Clock) (year month : Option Int) (expiry : Option PyDate) :
    Except PyExc (Int × Int × PyDate) :=
  if (month.isSome && year.isNone) || (month.isNone && year.isSome && expiry.isNone) then
    .error (.valueError "You must specify either (`year` and `month`) or `expiry` or none of these options for the current month.")
  else
    match expiry with
    | some e => .ok (e.year, e.month, e)
    | none =>
      match year, month with
      | none, none =>
        match mkDate cur.year cur.month 1 with
        | .ok e => .ok (cur.year, cur.month, e)
        | .error e => .error e
      | some y, some m =>
        match mkDate y m 1 with
        | .ok e => .ok (y, m, e)
        | .error e => .error e
      | _, _ =>
        -- unreachable: a lone month or year without expiry is rejected by
        -- the guard above; Python would raise TypeError at dt.date(None, ...)
        .error (.typeError "an integer is required")

/-- Helper `str.zfill(2)` as used on the quote-time hour field, and the
`'{0:0>2}'.format(s)` padding of `_two_char_month`. -/
def zfill2 (s : String) : String :=
  if s.length < 2 then String.mk (List.replicate (2 - s.length) '0') ++ s else s

/-- Source `_two_char_month(s)`. -/
def _two_char_month (m : Int) : String :=
  zfill2 (toString m)

/-- A minimal markup element, carrying exactly what `_get_underlying_price`
reads: its text and its child elements. -/
inductive Elem where
  | mk (text : Option String) (children : List Elem)
deriving Repr

def Elem.text : Elem → Option String
  | .mk t _ => t

def Elem.children : Elem → List Elem
  | .mk _ c => c

/-- A fetched page, viewed through the xpath queries the source performs:
the `<table>` collection, and the element lists matching the two quote
classes `time_rtq_ticker` and `time_rtq`. -/
structure Page where
  tables : List RawTable
  rtqTicker : List Elem
  rtqTime : List Elem
deriving Repr

/-- A wall-clock quote time, as `strptime` plus `.replace(...)` produce it. -/
structure QTime where
  year : Int
  month : Int
  day : Int
  hour : Int
  minute : Int
deriving DecidableEq, Repr

/-- The `quote_time` session attribute: a parsed time, or the `np.nan` the
degraded path stores. -/
inductive QuoteVal where
  | nan
  | time (t : QTime)
deriving DecidableEq, Repr

def monthAbbrevs : List String :=
  ["Jan", "Feb", "Mar", "Apr", "May", "Jun", "Jul", "Aug", "Sep", "Oct", "Nov", "Dec"]

def monthOfAbbrev (s : String) : Option Int :=
  match monthAbbrevs.findIdx? (fun m => m == s) with
  | some i => some ((i : Int) + 1)
  | none => none

/-- Parse a non-empty all-digit string. -/
def parseNatStr (s : String) : Option Int :=
  let l := s.toList
  if !l.isEmpty && l.all Char.isDigit then some ((digitsToNat l : Int)) else none

/-- Shared tail of both quote-time formats: `"HH:MM" ++ AM/PM ++ " EDT"`.
Returns `(hour, minute)`; `%H` is a 24-hour field, `%p` is matched but does
not adjust it (the known quirk of pairing `%H` with `%p`). -/
def parseClockTail (s : String) : Option (Int × Int) :=
  match s.splitOn " " with
  | [hm, "EDT"] =>
    match hm.splitOn ":" with
    | [hS, mRest] =>
      let minuteS := pyStrSlice mRest 0 2
      let ampm := (pyStrSliceFrom mRest 2).toUpper
      match parseNatStr hS, parseNatStr minuteS with
      | some h, some minu =>
        if (ampm == "AM" || ampm == "PM") && h ≤ 23 && minu ≤ 59 && minuteS.length == 2 then
          some (h, minu)
        else none
      | _, _ => none
    | _ => none
  | _ => none

/-- Model of `datetime.strptime(s, "%b %d, %H:%M%p EDT")`: defaulted fields
(year) are 1900; raises `ValueError` on a mismatch. -/
def strptimeMonthDayHM (s : String) : Except PyExc QTime :=
  let err : Except PyExc QTime :=
    .error (.valueError ("time data " ++ s ++ " does not match format"))
  match s.splitOn ", " with
  | [datePart, timePart] =>
    match datePart.splitOn " " with
    | [mon, dayS] =>
      match monthOfAbbrev mon, parseNatStr dayS, parseClockTail timePart with
      | some m, some d, some (h, minu) =>
        if 1 ≤ d && d ≤ daysInMonth 1900 m then .ok ⟨1900, m, d, h, minu⟩ else err
      | _, _, _ => err
    | _ => err
  | _ => err

/-- Model of `datetime.strptime(s, "%H:%M%p EDT")`: defaulted fields are
1900-01-01. -/
def strptimeHM (s : String) : Except PyExc QTime :=
  match parseClockTail s with
  | some (h, minu) => .ok ⟨1900, 1, 1, h, minu⟩
  | none => .error (.valueError ("time data " ++ s ++ " does not match format"))

/-- Source `Options._get_underlying_price(root)`: the price from the first
`time_rtq_ticker` element's first child, and the quote time from the first
`time_rtq` element's first child — parsed as `"%b %d, %H:%M%p EDT"` with the
import-time year substituted when that child carries text, and otherwise (the
markets-closed visual variant) as `"%H:%M%p EDT"` from the nested child with
year, month and day substituted. Empty xpath selections and missing children
surface as `IndexError`. -/
def _get_underlying_price (cur : Clock) (root : Page) : Except PyExc (ℚ × QTime) := do
  let tickerEl ← match root.rtqTicker with
    | [] => Except.error (.indexError "list index out of range")
    | e :: _ => Except.ok e
  let c0 ← match tickerEl.children with
    | [] => Except.error (.indexError "list index out of range")
    | c :: _ => Except.ok c
  let price ← match c0.text with
    | none => Except.error (.typeError "float() argument must be a string or a number")
    | some t =>
      match pyFloatOfString t with
      | some q => Except.ok q
      | none => Except.error (.valueError ("could not convert string to float: " ++ t))
  let timeEl ← match root.rtqTime with
    | [] => Except.error (.indexError "list index out of range")
    | e :: _ => Except.ok e
  let t0 ← match timeEl.children with
    | [] => Except.error (.indexError "list index out of range")
    | c :: _ => Except.ok c
  let nested : Except PyExc (ℚ × QTime) := do
    let g0 ← match t0.children with
      | [] => Except.error (.indexError "list index out of range")
      | c :: _ => Except.ok c
    match g0.text with
    | none => Except.error (.typeError "strptime() argument 1 must be str, not None")
    | some t2 => do
      let qt ← strptimeHM t2
      Except.ok (price, { qt with year := cur.year, month := cur.month, day := cur.day })
  match t0.text with
  | some txt =>
    if txt ≠ "" then do
      let split := txt.splitOn ","
      let s0 ← match split.get? 0 with
        | some x => Except.ok x
        | none => Except.error (.indexError "list index out of range")
      let s1 ← match split.get? 1 with
        | some x => Except.ok x
        | none => Except.error (.indexError "list index out of range")
      let timesplit := s1.trim.splitOn ":"
      let h0 ← match timesplit.get? 0 with
        | some x => Except.ok x
        | none => Except.error (.indexError "list index out of range")
      let h1 ← match timesplit.get? 1 with
        | some x => Except.ok x
        | none => Except.error (.indexError "list index out of range")
      let timestring := s0 ++ ", " ++ zfill2 h0 ++ ":" ++ h1
      let qt ← strptimeMonthDayHM timestring
      Except.ok (price, { qt with year := cur.year })
    else nested
  | none => nested

/-- Result of a pandas `.str` slice applied per element: a string, or NaN on
non-string input (the behaviour of the `Series.str` accessor of the era). -/
inductive SVal where
  | s (v : String)
  | nan
deriving DecidableEq, Repr

/-- The `.str[a:b]` slice per element. -/
def SVal.slice (v : SVal) (a b : Int) : SVal :=
  match v with
  | .s t => .s (pyStrSlice t a b)
  | .nan => .nan

/-- The `.str[a:]` slice per element. -/
def SVal.sliceFrom (v : SVal) (a : Int) : SVal :=
  match v with
  | .s t => .s (pyStrSliceFrom t a)
  | .nan => .nan

def svalFromCell : CellVal → SVal
  | .s t => .s t
  | .f _ => .nan

/-- An `Expiry` value: a timestamp or NaT. -/
inductive DateVal where
  | nat
  | d (v : PyDate)
deriving DecidableEq, Repr

/-- Modelled from the spec: `pandas.to_datetime` is a collaborator whose code
is outside `src/`; in this subsystem it only ever receives the 6-character
`%y%m%d` date code cut from an option symbol ("decode the option symbol into
a root-plus-date code by stripping a fixed-length date suffix"), or NaN for a
non-string symbol, which maps to NaT. Two-digit years pivot at 68 as in
dateutil; anything unparseable raises. -/
def to_datetime6 (v : SVal) : Except PyExc DateVal :=
  match v with
  | .nan => .ok .nat
  | .s t =>
    let cs := t.toList
    if cs.length == 6 && cs.all Char.isDigit then
      let yy : Int := (digitsToNat (cs.take 2) : Int)
      let y := if yy ≤ 68 then 2000 + yy else 1900 + yy
      let m : Int := (digitsToNat ((cs.drop 2).take 2) : Int)
      let d : Int := (digitsToNat ((cs.drop 4).take 2) : Int)
      match mkDate y m d with
      | .ok dt => .ok (.d dt)
      | .error e => .error e
    else .error (.valueError ("could not parse " ++ t))

/-- Per-element view of `frame.Symbol.str[0:-9]` on a string symbol. -/
def rootexpOfSym (sym : String) : String :=
  pyStrSlice sym 0 (-9)

/-- Per-element view of `frame.Rootexp.str[0:-6]` on a string symbol: the
decoded root. -/
def rootOfSym (sym : String) : String :=
  pyStrSlice (rootexpOfSym sym) 0 (-6)

/-- One post-processed option row, after `Options._process_data`: the four
fields `set_index` consumes, the added columns, and the remaining data
cells. `Rootexp` is deleted by the source and does not appear. -/
structure ProcRow where
  strike : CellVal
  expiry : DateVal
  type : String
  symbol : CellVal
  root : SVal
  isNonstandard : Bool
  underlying : String
  underlyingPrice : PyFloat
  quoteTime : QuoteVal
  cells : List CellVal
deriving DecidableEq, Repr

/-- A processed frame: the non-index column names (with `Open Int` renamed)
and the processed rows. -/
structure Frame where
  colNames : List CellVal
  rows : List ProcRow
deriving DecidableEq, Repr

/-- Position of a named column in a parsed header. -/
def findCol (header : List CellVal) (nm : String) : Option Nat :=
  header.findIdx? (fun c => c == CellVal.s nm)

/-- Drop the entries at two positions (the `Strike` and `Symbol` columns that
`set_index` moves out of the column set). -/
def removeIdxs {α : Type} (l : List α) (i j : Nat) : List α :=
  (l.enum.filter (fun p => p.1 ≠ i && p.1 ≠ j)).map Prod.snd

/-- The `Open Int` → `Open_Int` rename of `_process_data`. -/
def renameOpenInt (c : CellVal) : CellVal :=
  if c == .s "Open Int" then .s "Open_Int" else c

/-- Assembly of one processed row from its parsed cells, the computed expiry,
and the session snapshot: the per-row effect of the column operations of
`_process_data`. `IsNonstandard` is `frame['Root'] != self.symbol.replace('-','')`;
elementwise, a NaN root compares unequal to the string, hence `true`. -/
def mkProcRow (sessSymbol : String) (up : PyFloat) (qt : QuoteVal) (type : String)
    (symIdx strikeIdx : Nat) (row : List CellVal) (expiry : DateVal) : ProcRow :=
  let symCell := row.getD symIdx (.f .nan)
  let rootexp := (svalFromCell symCell).slice 0 (-9)
  let root := rootexp.slice 0 (-6)
  { strike := row.getD strikeIdx (.f .nan)
    expiry := expiry
    type := type
    symbol := symCell
    root := root
    isNonstandard :=
      match root with
      | .s r => decide (r ≠ removeDashes sessSymbol)
      | .nan => true
    underlying := sessSymbol
    underlyingPrice := up
    quoteTime := qt
    cells := removeIdxs row symIdx strikeIdx }

/-- Source `Options._process_data(frame, type)` over a parsed frame, given the
session's symbol and snapshot. Failure order follows the source: the
`frame.Symbol` attribute access first (`AttributeError` when the column is
missing), then the column-level `to_datetime` (first bad row raises), then the
`Strike` lookup of `set_index` (`KeyError`). Rows shorter than the header read
as NaN, as `TextParser` pads them. -/
def _process_data (sessSymbol : String) (up : PyFloat) (qt : QuoteVal) (type : String)
    (f0 : Frame0) : Except PyExc Frame := do
  let symIdx ← match findCol f0.header "Symbol" with
    | some i => Except.ok i
    | none => Except.error (.attributeError "'DataFrame' object has no attribute 'Symbol'")
  let expiries ← f0.rows.mapM (fun r =>
    to_datetime6 (((svalFromCell (r.getD symIdx (.f .nan))).slice 0 (-9)).sliceFrom (-6)))
  let strikeIdx ← match findCol f0.header "Strike" with
    | some i => Except.ok i
    | none => Except.error (.keyError "Strike")
  let rows := (f0.rows.zip expiries).map
    (fun p => mkProcRow sessSymbol up qt type symIdx strikeIdx p.1 p.2)
  let names := removeIdxs (f0.header.map renameOpenInt) symIdx strikeIdx
  Except.ok
    { colNames := names ++ [.s "Root", .s "IsNonstandard", .s "Underlying",
        .s "Underlying_Price", .s "Quote_Time"],
      rows := rows }

/-- The `Options` session: its symbol, the dynamically named attribute
families, the underlying snapshot, and a count of fetcher invocations. -/
structure Session where
  symbol : String
  tablesAttrs : List (String × List RawTable)
  frameAttrs : List (String × Frame)
  underlyingPrice : Option PyFloat
  quoteTime : Option QuoteVal
  fetchCount : Nat
deriving Repr

/-- Attribute lookup on an association list (the `getattr` of a dynamically
named attribute; `none` models `AttributeError`). -/
def lookupAttr {α : Type} : List (String × α) → String → Option α
  | [], _ => none
  | (k, v) :: t, k' => if k = k' then some v else lookupAttr t k'

/-- Attribute store on an association list (`setattr`: overwrite or add). -/
def setAttr {α : Type} : List (String × α) → String → α → List (String × α)
  | [], k, v => [(k, v)]
  | (k', v') :: t, k, v => if k' = k then (k, v) :: t else (k', v') :: setAttr t k v

/-- Source `Options.__init__`: upper-cases the ticker (only the yahoo source
is supported; the bare-symbol deprecation warning is non-fatal). A fresh
instance has none of the dynamic attributes set. -/
def Session.init (symbol : String) : Session :=
  { symbol := pyUpper symbol, tablesAttrs := [], frameAttrs := [],
    underlyingPrice := none, quoteTime := none, fetchCount := 0 }

/-- A stubbed page fetcher standing for `_parse_url` (network + lxml): errors
model the `RemoteDataError`s `_parse_url` raises for unreachable or rootless
documents. -/
def Fetcher : Type := String → Except PyExc Page

def _OPTIONS_BASE_URL : String := "http://finance.yahoo.com/q/op?s="

/-- URL built by `Options._get_option_page_from_yahoo`: the current calendar
month requests the default view, other expiries the explicit year-month
view. -/
def optionsUrl (cur : Clock) (sym : String) (expiry : PyDate) : String :=
  let url := _OPTIONS_BASE_URL ++ sym
  if expiry.month == cur.month && expiry.year == cur.year then url ++ "+Options"
  else url ++ "&m=" ++ toString expiry.year ++ "-" ++ _two_char_month expiry.month

/-- Source `Options._parse_option_page_from_yahoo(root)`: collect the page's
tables, failing with `RemoteDataError` when there are none, then record the
underlying snapshot, degrading it to `(np.nan, np.nan)` when the quote lookup
raises `IndexError`; any other exception propagates. -/
def _parse_option_page_from_yahoo (cur : Clock) (s : Session) (root : Page) :
    Session × Except PyExc (List RawTable) :=
  let tables := root.tables
  if tables.length == 0 then (s, .error (.remoteDataError "No tables found"))
  else
    match _get_underlying_price cur root with
    | .ok (p, t) =>
      ({ s with underlyingPrice := some (.num p), quoteTime := some (.time t) }, .ok tables)
    | .error (.indexError _) =>
      ({ s with underlyingPrice := some .nan, quoteTime := some .nan }, .ok tables)
    | .error e => (s, .error e)

/-- The dynamic cache attribute name `'_tables' + m1 + str(year)[-2:]`. -/
def tablesName (month year : Int) : String :=
  "_tables" ++ _two_char_month month ++ pyStrSliceFrom (toString year) (-2)

/-- Source `Options._get_option_tables(expiry)`: fetch and parse the page for
an expiry and cache the table collection under the month/year attribute
name. The fetch counter records the `_parse_url` invocation. -/
def _get_option_tables (cur : Clock) (env : Fetcher) (s : Session) (expiry : PyDate) :
    Session × Except PyExc (List RawTable) :=
  let s := { s with fetchCount := s.fetchCount + 1 }
  match env (optionsUrl cur s.symbol expiry) with
  | .error e => (s, .error e)
  | .ok root =>
    match _parse_option_page_from_yahoo cur s root with
    | (s1, .error e) => (s1, .error e)
    | (s1, .ok tables) =>
      ({ s1 with tablesAttrs := setAttr s1.tablesAttrs (tablesName expiry.month expiry.year) tables },
       .ok tables)

/-- The `getattr`-or-fetch step of `_get_option_data` (the `try ... except
AttributeError` around the cached table attribute). -/
def cacheOrFetchTables (cur : Clock) (env : Fetcher) (s : Session) (tname : String)
    (expiry : PyDate) : Session × Except PyExc (List RawTable) :=
  match lookupAttr s.tablesAttrs tname with
  | some tables => (s, .ok tables)
  | none => _get_option_tables cur env s expiry

/-- Source `Options._TABLE_LOC`: fixed positional indices of the calls and
puts tables; any other key raises `KeyError`. -/
def _TABLE_LOC (name : String) : Except PyExc Nat :=
  if name = "calls" then .ok 9
  else if name = "puts" then .ok 13
  else .error (.keyError name)

/-- The month/year-qualified attribute name `name + m1 + str(year)[-2:]`
(`callsMMYY` / `putsMMYY`) built by `_get_option_data`'s `name += ...`. -/
def qualifiedName (name : String) (month year : Int) : String :=
  name ++ _two_char_month month ++ pyStrSliceFrom (toString year) (-2)

/-- The table-selection, parse, process and store steps of
`Options._get_option_data` (after the cached tables are in hand): the
`_TABLE_LOC` lookup, the off-by-guard `table_loc - 1 > ntables` check with its
specific `RemoteDataError`, and the `try` block whose every exception is
wrapped as `RemoteDataError("Cannot retrieve Table data " + str(e))`. On
success the frame is stored under the side name when the requested month/year
is the import-time current one, and always under the month/year-qualified
name. (`option_data['Type'] = name[:-1]` adds a column `_process_data`
overwrites with the same value before indexing on it.) -/
def finishOptionData (cur : Clock) (s : Session) (month year : Int) (name : String)
    (tables : List RawTable) : Session × Except PyExc Frame :=
  let ntables := tables.length
  match _TABLE_LOC name with
  | .error e => (s, .error e)
  | .ok tableLoc =>
    if tableLoc - 1 > ntables then
      (s, .error (.remoteDataError ("Table location " ++ toString tableLoc ++ " invalid, "
        ++ toString ntables ++ " tables found")))
    else
      let attempt : Except PyExc Frame := do
        let t ← match tables.get? tableLoc with
          | some t => Except.ok t
          | none => Except.error (.indexError "list index out of range")
        let f0 ← _parse_options_data t
        let up ← match s.underlyingPrice with
          | some p => Except.ok p
          | none => Except.error (.attributeError "'Options' object has no attribute 'underlying_price'")
        let qt ← match s.quoteTime with
          | some q => Except.ok q
          | none => Except.error (.attributeError "'Options' object has no attribute 'quote_time'")
        _process_data s.symbol up qt (pyStrSlice name 0 (-1)) f0
      match attempt with
      | .error e => (s, .error (.remoteDataError ("Cannot retrieve Table data " ++ e.message)))
      | .ok frame =>
        let s1 :=
          if month == cur.month && year == cur.year then
            { s with frameAttrs := setAttr s.frameAttrs name frame }
          else s
        let s2 := { s1 with frameAttrs := setAttr s1.frameAttrs (qualifiedName name month year) frame }
        (s2, .ok frame)

/-- Source `Options._get_option_data(month, year, expiry, name)`: validate the
dates, look the table collection up in the session cache (fetching on a
miss), then select, parse, process and store the requested side. -/
def _get_option_data (cur : Clock) (env : Fetcher) (s : Session) (month year : Option Int)
    (expiry : Option PyDate) (name : String) : Session × Except PyExc Frame :=
  match _try_parse_dates cur year month expiry with
  | .error e => (s, .error e)
  | .ok (year1, month1, expiry1) =>
    match cacheOrFetchTables cur env s (tablesName month1 year1) expiry1 with
    | (s1, .error e) => (s1, .error e)
    | (s1, .ok tables) => finishOptionData cur s1 month1 year1 name tables

/-- Elementwise `df.index.get_level_values('Strike') > underlying_price`:
NaN compares false under numpy. (String strikes do not occur in parsed
tables.) -/
def cellGtPrice (c : CellVal) (p : ℚ) : Bool :=
  match c with
  | .f (.num q) => decide (q > p)
  | _ => false

/-- Python truthiness test `not underlying_price` on the argument: `None` and
`0.0` are falsy; NaN and non-zero floats are truthy. -/
def priceIsFalsy : Option PyFloat → Bool
  | none => true
  | some .nan => false
  | some (.num q) => decide (q = 0)

def cellIsNA : CellVal → Bool
  | .f .nan => true
  | _ => false

def svalIsNA : SVal → Bool
  | .nan => true
  | .s _ => false

/-- A bool column value is never NA in pandas. -/
def boolColIsNA (_ : Bool) : Bool := false

/-- A string column value is never NA in pandas. -/
def strColIsNA (_ : String) : Bool := false

def quoteValIsNA : QuoteVal → Bool
  | .nan => true
  | .time _ => false

/-- The `dropna(how='all')` row test over the non-index columns of a
processed frame. The `Root`, `IsNonstandard` and `Underlying` columns are
string/bool valued and never NA, so a processed row is in fact never entirely
NA; the full test is kept as written. -/
def procRowIsAllNA (r : ProcRow) : Bool :=
  r.cells.all cellIsNA && svalIsNA r.root && boolColIsNA r.isNonstandard
  && strColIsNA r.underlying && r.underlyingPrice.isNan && quoteValIsNA r.quoteTime

/-- `df[get_range].dropna(how='all')`'s final filter. -/
def dropnaAll (rows : List ProcRow) : List ProcRow :=
  rows.filter (fun r => !procRowIsAllNA r)

/-- Source `Options.chop_data(df, above_below, underlying_price)`: a falsy
price argument falls back to the session's `underlying_price` attribute, or
NaN when that attribute was never set (`except AttributeError`); a NaN price
skips filtering; otherwise the window around the first strike above the price
is sliced out (Python slice semantics, so a window start below zero wraps)
and entirely-empty rows are dropped. `np.where(...)[0][0]` raises
`IndexError` when no strike exceeds the price. -/
def chop_data (s : Session) (df : Frame) (above_below : Int)
    (underlying_price : Option PyFloat) : Except PyExc Frame :=
  let up : PyFloat :=
    if priceIsFalsy underlying_price then
      match s.underlyingPrice with
      | some p => p
      | none => .nan
    else underlying_price.getD .nan
  match up with
  | .nan => .ok df
  | .num q =>
    match (df.rows.map (fun r => cellGtPrice r.strike q)).findIdx? (fun b => b) with
    | none => .error (.indexError "index 0 is out of bounds for axis 0 with size 0")
    | some startIndex =>
      let win := pySlice df.rows ((startIndex : Int) - above_below)
        ((startIndex : Int) + above_below + 1)
      .ok { df with rows := dropnaAll win }

/-- Strike index level of a frame, for stating window results. -/
def strikesOf (f : Frame) : List CellVal :=
  f.rows.map ProcRow.strike

/-- Stated from the spec's words, for comparison with the source computation:
"IsNonstandard is true iff the decoded root symbol, with separator/hyphen
characters stripped from the root, differs from the session's underlying
symbol". -/
def isNonstandardSpec (sessSymbol optSymbol : String) : Bool :=
  decide (removeDashes (rootOfSym optSymbol) ≠ sessSymbol)

/-- Value of an `Except`, forgetting the error. -/
def exceptToOption {ε α : Type} : Except ε α → Option α
  | .ok a => some a
  | .error _ => none

instance {ε α : Type} [DecidableEq ε] [DecidableEq α] : DecidableEq (Except ε α)
  | .ok a, .ok b =>
    if h : a = b then .isTrue (by rw [h]) else .isFalse (by intro hc; cases hc; exact h rfl)
  | .error a, .error b =>
    if h : a = b then .isTrue (by rw [h]) else .isFalse (by intro hc; cases hc; exact h rfl)
  | .ok _, .error _ => .isFalse (by intro hc; cases hc)
  | .error _, .ok _ => .isFalse (by intro hc; cases hc)

/-
Concrete instances used by the settled claims: a well-formed options table,
pages of various table counts, stubbed fetchers, and small frames.
-/

/-- A well-formed two-row options table: a header row naming `Strike` and
`Symbol`, and one data row. -/
def wTable : RawTable :=
  { rows := [ { th := [⟨"Strike", false⟩, ⟨"Symbol", false⟩], td := [] },
              { th := [], td := [⟨"100", false⟩, ⟨"BRKB140517C00100000", false⟩] } ] }

/-- A page with 14 copies of `wTable` and no quote elements. -/
def wPage14 : Page :=
  { tables := List.replicate 14 wTable, rtqTicker := [], rtqTime := [] }

def wEnv : Fetcher := fun _ => .ok wPage14

/-- An import-time clock far from the requested expiries. -/
def wClock : Clock := ⟨10, 2026, 12⟩

/-- A clock agreeing with the requested May 2014 expiry. -/
def wClockMay14 : Clock := ⟨5, 2014, 12⟩

/-- A page with 8 tables: too few for the calls position 9, yet enough to
pass the `table_loc - 1 > ntables` guard. -/
def wPage8 : Page :=
  { tables := List.replicate 8 wTable, rtqTicker := [], rtqTime := [] }

def wEnv8 : Fetcher := fun _ => .ok wPage8

/-- A page with 7 tables: few enough that the guard fires. -/
def wPage7 : Page :=
  { tables := List.replicate 7 wTable, rtqTicker := [], rtqTime := [] }

def wEnv7 : Fetcher := fun _ => .ok wPage7

/-- A processed row with the given strike and one non-NA data cell. -/
def strikeRow (q : ℚ) : ProcRow :=
  { strike := .f (.num q), expiry := .nat, type := "call", symbol := .s "X",
    root := .s "X", isNonstandard := false, underlying := "X",
    underlyingPrice := .nan, quoteTime := .nan, cells := [.f (.num 1)] }

/-- A frame whose Strike index holds the ascending values 10..70. -/
def chopTable7 : Frame :=
  { colNames := [.s "Last"], rows := [10, 20, 30, 40, 50, 60, 70].map strikeRow }

/-- A fresh session with no snapshot recorded. -/
def chopSession : Session := Session.init "X"

/-- A parsed one-row frame for a `BRK-B` session: the option symbol Yahoo
actually lists for that underlying carries the dash-less root `BRKB`. -/
def brkFrame0 : Frame0 :=
  ⟨[.s "Strike", .s "Symbol"], [[.f (.num 100), .s "BRKB140517C00100000"]]⟩

/-- A parsed one-row frame for an `AAPL` session. -/
def aaplFrame0 : Frame0 :=
  ⟨[.s "Strike", .s "Symbol"], [[.f (.num 100), .s "AAPL140517P00100000"]]⟩

/-- The processed row `_process_data` produces from `aaplFrame0`. -/
def aaplRow : ProcRow :=
  { strike := .f (.num 100), expiry := .d ⟨2014, 5, 17⟩, type := "put",
    symbol := .s "AAPL140517P00100000", root := .s "AAPL", isNonstandard := false,
    underlying := "AAPL", underlyingPrice := .nan, quoteTime := .nan, cells := [] }

/-- The processed frame `_process_data` produces from `aaplFrame0`. -/
def aaplFrame : Frame :=
  { colNames := [.s "Root", .s "IsNonstandard", .s "Underlying",
      .s "Underlying_Price", .s "Quote_Time"],
    rows := [aaplRow] }

/-- A ticker element whose text does not parse as a float (the no-live-quote
rendering). -/
def c8TickerBad : Elem := .mk none [.mk (some "N/A") []]

/-- A one-table page whose quote-time lookup finds no element while the
ticker element is present but malformed. -/
def c8Page : Page := { tables := [wTable], rtqTicker := [c8TickerBad], rtqTime := [] }

/-- A one-table page with no quote-ticker element at all. -/
def c8PageNoTicker : Page := { tables := [wTable], rtqTicker := [], rtqTime := [] }

/-
Helper lemmas shared by the claim theorems.
-/

theorem lookupAttr_setAttr_self {α : Type} (l : List (String × α)) (k : String) (v : α) :
    lookupAttr (setAttr l k v) k = some v := by
  induction l with
  | nil => simp [setAttr, lookupAttr]
  | cons hd t ih =>
    obtain ⟨k', v'⟩ := hd
    by_cases hk : k' = k
    · subst hk; simp [setAttr, lookupAttr]
    · simp [setAttr, lookupAttr, hk, Ne.symm hk, ih]

theorem lookupAttr_setAttr_ne {α : Type} (l : List (String × α)) (k k' : String) (v : α)
    (h : k' ≠ k) : lookupAttr (setAttr l k v) k' = lookupAttr l k' := by
  induction l with
  | nil => simp [setAttr, lookupAttr, Ne.symm h]
  | cons hd t ih =>
    obtain ⟨k0, v0⟩ := hd
    by_cases hk : k0 = k
    · subst hk; simp [setAttr, lookupAttr, Ne.symm h]
    · simp [setAttr, lookupAttr, hk, ih]

theorem zfill2_length (s : String) : 2 ≤ (zfill2 s).length := by
  unfold zfill2
  split
  · rename_i h
    rw [String.length_append]
    have : (String.mk (List.replicate (2 - s.length) '0')).length = 2 - s.length := by
      show (List.replicate (2 - s.length) '0').length = 2 - s.length
      simp
    omega
  · omega

theorem two_char_month_length (m : Int) : 2 ≤ (_two_char_month m).length :=
  zfill2_length _

theorem name_ne_qualifiedName (n : String) (m y : Int) : n ≠ qualifiedName n m y := by
  intro h
  have hl := congrArg String.length h
  rw [qualifiedName, String.length_append, String.length_append] at hl
  have := two_char_month_length m
  omega

theorem mkDate_ok (y m d : Int) (e : PyDate) (h : mkDate y m d = .ok e) : e = ⟨y, m, d⟩ := by
  unfold mkDate at h
  split at h
  · injection h with h; exact h.symm
  · cases h

theorem try_parse_both_some (cur : Clock) (y m : Int) (t : Int × Int × PyDate)
    (h : _try_parse_dates cur (some y) (some m) none = .ok t) :
    ∃ e, mkDate y m 1 = .ok e ∧ t = (y, m, e) := by
  unfold _try_parse_dates at h
  simp at h
  split at h
  · rename_i e1 heq
    injection h with h
    exact ⟨e1, heq, h.symm⟩
  · cases h

theorem parse_page_state (cur : Clock) (s : Session) (r : Page) :
    (_parse_option_page_from_yahoo cur s r).1.tablesAttrs = s.tablesAttrs ∧
    (_parse_option_page_from_yahoo cur s r).1.frameAttrs = s.frameAttrs ∧
    (_parse_option_page_from_yahoo cur s r).1.fetchCount = s.fetchCount ∧
    (_parse_option_page_from_yahoo cur s r).1.symbol = s.symbol := by
  unfold _parse_option_page_from_yahoo
  dsimp only
  split <;> (try split) <;> simp

theorem get_option_tables_ok (cur : Clock) (env : Fetcher) (s s1 : Session) (e : PyDate)
    (ts : List RawTable) (h : _get_option_tables cur env s e = (s1, .ok ts)) :
    s1.fetchCount = s.fetchCount + 1 ∧
    lookupAttr s1.tablesAttrs (tablesName e.month e.year) = some ts ∧
    s1.frameAttrs = s.frameAttrs := by
  unfold _get_option_tables at h
  dsimp only at h
  split at h
  · cases h
  · rename_i root henv
    split at h
    · cases h
    · rename_i s2 tables hparse
      injection h with h1 h2
      injection h2 with h2
      subst h1 h2
      have hst := parse_page_state cur { s with fetchCount := s.fetchCount + 1 } root
      rw [hparse] at hst
      refine ⟨?_, ?_, ?_⟩
      · simpa using hst.2.2.1
      · simp [lookupAttr_setAttr_self]
      · simpa using hst.2.1

theorem finish_preserves (cur : Clock) (s : Session) (m y : Int) (n : String)
    (ts : List RawTable) :
    (finishOptionData cur s m y n ts).1.fetchCount = s.fetchCount ∧
    (finishOptionData cur s m y n ts).1.tablesAttrs = s.tablesAttrs ∧
    (finishOptionData cur s m y n ts).1.symbol = s.symbol := by
  unfold finishOptionData
  dsimp only
  split <;> (try split) <;> (try split) <;> (try split) <;> simp

theorem finish_ok_frames (cur : Clock) (s s2 : Session) (m y : Int) (n : String)
    (ts : List RawTable) (f : Frame)
    (h : finishOptionData cur s m y n ts = (s2, .ok f)) :
    s2.frameAttrs = setAttr (if m == cur.month && y == cur.year then setAttr s.frameAttrs n f
      else s.frameAttrs) (qualifiedName n m y) f := by
  unfold finishOptionData at h
  dsimp only at h
  split at h
  · cases h
  · split at h
    · cases h
    · split at h
      · cases h
      · rename_i frame hat
        injection h with h1 h2
        injection h2 with h2
        subst h1 h2
        split <;> rename_i hcur <;> simp [hcur]

theorem mkProcRow_isNonstandard (sym : String) (up : PyFloat) (qt : QuoteVal) (ty : String)
    (symIdx strikeIdx : Nat) (row : List CellVal) (e : DateVal) (v : String)
    (hs : row.getD symIdx (.f .nan) = .s v) :
    (mkProcRow sym up qt ty symIdx strikeIdx row e).isNonstandard
      = decide (rootOfSym v ≠ removeDashes sym) := by
  have hs2 : row[symIdx]?.getD (CellVal.f PyFloat.nan) = CellVal.s v := by
    simpa [List.getD] using hs
  simp [mkProcRow, hs2, svalFromCell, SVal.slice, rootOfSym, rootexpOfSym]

/-- C1: for every valid (month, year) pair on one `Options` session with no
cached table set for that pair, after a first successful call to the chain
accessor for that pair, a second call for the same pair (either side)
performs no page fetch: the first call performs exactly one fetch
(`fetchCount` rises by one) and the second call leaves the fetch count
unchanged, reusing the table set cached under the `(month, year)` key. -/
theorem optionChain_cache_hit_single_fetch
    (cur : Clock) (env : Fetcher) (s0 : Session) (month year : Int) (n1 n2 : String)
    (h0 : lookupAttr s0.tablesAttrs (tablesName month year) = none)
    (h1 : (_get_option_data cur env s0 (some month) (some year) none n1).2.isOk = true) :
    (_get_option_data cur env s0 (some month) (some year) none n1).1.fetchCount
      = s0.fetchCount + 1 ∧
    (_get_option_data cur env
        (_get_option_data cur env s0 (some month) (some year) none n1).1
        (some month) (some year) none n2).1.fetchCount
      = (_get_option_data cur env s0 (some month) (some year) none n1).1.fetchCount := by
  cases htp : _try_parse_dates cur (some year) (some month) none with
  | error e =>
    simp only [_get_option_data, htp] at h1
    cases h1
  | ok t =>
    obtain ⟨e, hmk, rfl⟩ := try_parse_both_some cur year month t htp
    have he : e = ⟨year, month, 1⟩ := mkDate_ok _ _ _ _ hmk
    subst he
    have hco0 : cacheOrFetchTables cur env s0 (tablesName month year)
        (⟨year, month, 1⟩ : PyDate) = _get_option_tables cur env s0 ⟨year, month, 1⟩ := by
      unfold cacheOrFetchTables; rw [h0]
    simp only [_get_option_data, htp] at h1 ⊢
    rw [hco0] at h1 ⊢
    cases hgt : _get_option_tables cur env s0 ⟨year, month, 1⟩ with
    | mk s1 r =>
      cases r with
      | error err =>
        rw [hgt] at h1
        simp [Except.isOk, Except.toBool] at h1
      | ok ts =>
        dsimp only at h1 ⊢
        obtain ⟨hfc, hlk, _⟩ := get_option_tables_ok cur env s0 s1 ⟨year, month, 1⟩ ts hgt
        have hprev := finish_preserves cur s1 month year n1 ts
        refine ⟨by rw [hprev.1, hfc], ?_⟩
        have hlk1 : lookupAttr (finishOptionData cur s1 month year n1 ts).1.tablesAttrs
            (tablesName month year) = some ts := by
          rw [hprev.2.1]
          exact hlk
        have hco1 : cacheOrFetchTables cur env (finishOptionData cur s1 month year n1 ts).1
            (tablesName month year) (⟨year, month, 1⟩ : PyDate)
            = ((finishOptionData cur s1 month year n1 ts).1, .ok ts) := by
          unfold cacheOrFetchTables; rw [hlk1]
        rw [hco1]
        dsimp only
        exact (finish_preserves cur _ month year n2 ts).1

/-- Witness for C1: a fresh `BRKB` session against a stubbed fetcher, a call
for May 2014 calls followed by one for May 2014 puts: one fetch for the
first, none for the second. -/
theorem optionChain_cache_hit_single_fetch_witness :
    lookupAttr (Session.init "BRKB").tablesAttrs (tablesName 5 2014) = none ∧
    (_get_option_data wClock wEnv (Session.init "BRKB") (some 5) (some 2014) none "calls").2.isOk
      = true ∧
    ((_get_option_data wClock wEnv (Session.init "BRKB") (some 5) (some 2014) none "calls").1.fetchCount
      = (Session.init "BRKB").fetchCount + 1 ∧
     (_get_option_data wClock wEnv
        (_get_option_data wClock wEnv (Session.init "BRKB") (some 5) (some 2014) none "calls").1
        (some 5) (some 2014) none "puts").1.fetchCount
      = (_get_option_data wClock wEnv (Session.init "BRKB") (some 5) (some 2014) none "calls").1.fetchCount) :=
  ⟨rfl, by decide,
    optionChain_cache_hit_single_fetch wClock wEnv (Session.init "BRKB") 5 2014 "calls" "puts"
      rfl (by decide)⟩

/-- C2 (code-bug evaluation): at the failing input `month=5, year=None,
expiry=date(2014,5,1)` the source raises the validation `ValueError` even
though an expiry was supplied — the missing parentheses make `expiry is None`
guard only the year-without-month disjunct — while the claim (and the
function's own docstring) say a supplied expiry overrides month/year with no
error. The other two conjuncts confirm the claim's remaining cases: a lone
year with expiry passes (expiry overrides), and supplying neither defaults to
the import-time current month. -/
theorem try_parse_month_with_expiry_still_raises :
    _try_parse_dates ⟨6, 2015, 1⟩ none (some 5) (some ⟨2014, 5, 1⟩)
      = .error (.valueError "You must specify either (`year` and `month`) or `expiry` or none of these options for the current month.") ∧
    _try_parse_dates ⟨6, 2015, 1⟩ none none (some ⟨2014, 5, 1⟩)
      = .ok (2014, 5, ⟨2014, 5, 1⟩) ∧
    _try_parse_dates ⟨6, 2015, 1⟩ none none none
      = .ok (2015, 6, ⟨2015, 6, 1⟩) := by
  refine ⟨by decide, by decide, by decide⟩

/-- C3 (counterexample): on the table with ascending strikes
[10,20,30,40,50,60,70] and underlying price 42, `chop_data` with
`above_below=2` does not return the strikes [20,30,40,50,60] the claim
states. -/
theorem chop_42_keeps_strikes_20_to_60 :
    ¬((exceptToOption (chop_data chopSession chopTable7 2 (some (PyFloat.num 42)))).map strikesOf
      = some [CellVal.f (.num 20), CellVal.f (.num 30), CellVal.f (.num 40),
              CellVal.f (.num 50), CellVal.f (.num 60)]) := by
  decide

/-- C3 (amended): on that table, `chop_data` with `above_below=2` and price
42 returns exactly the contiguous window of rows 2..6 — the first strike
above 42 sits at index 4, giving the slice [2,7) — whose strikes are
[30,40,50,60,70]. -/
theorem chop_42_window :
    chop_data chopSession chopTable7 2 (some (PyFloat.num 42))
      = .ok { colNames := chopTable7.colNames, rows := pySlice chopTable7.rows 2 7 } ∧
    (exceptToOption (chop_data chopSession chopTable7 2 (some (PyFloat.num 42)))).map strikesOf
      = some [CellVal.f (.num 30), CellVal.f (.num 40), CellVal.f (.num 50),
              CellVal.f (.num 60), CellVal.f (.num 70)] := by
  refine ⟨by decide, by decide⟩

/-- C4 (code-bug evaluation): with 8 tables on the page — fewer than the
calls position 9 — the `table_loc - 1 > ntables` guard does not fire
(8 > 8 is false); the out-of-range `tables[9]` access is instead wrapped
into the generic `RemoteDataError("Cannot retrieve Table data ...")`, which
does not name the required position and found count. Only from 7 tables down
does the specific error of the claim appear. -/
theorem table_loc_guard_off_by_two :
    (_get_option_data wClock wEnv8 (Session.init "XYZ") (some 5) (some 2014) none "calls").2
      = .error (.remoteDataError "Cannot retrieve Table data list index out of range") ∧
    (_get_option_data wClock wEnv8 (Session.init "XYZ") (some 5) (some 2014) none "calls").2
      ≠ .error (.remoteDataError "Table location 9 invalid, 8 tables found") ∧
    (_get_option_data wClock wEnv7 (Session.init "XYZ") (some 5) (some 2014) none "calls").2
      = .error (.remoteDataError "Table location 9 invalid, 7 tables found") := by
  refine ⟨by decide, by decide, by decide⟩

/-- C9: for every input frame, `chop_data` with a NaN underlying price is the
identity — NaN is truthy so no session fallback happens, and the
`np.isnan` test then skips all filtering and dropping. -/
theorem chop_data_nan_identity (s : Session) (df : Frame) (ab : Int) :
    chop_data s df ab (some PyFloat.nan) = .ok df := by
  simp [chop_data, priceIsFalsy]

/-- C10: `chop_data` treats every falsy `underlying_price` argument (`None`,
`0`, `0.0`) as absent: the call behaves exactly as if the session's stored
underlying price (or NaN when none was recorded) had been passed, so an
explicit 0.0 is never used for filtering; and with no session snapshot the
call returns the frame unchanged instead of raising. -/
theorem chop_data_falsy_fallback (s : Session) (df : Frame) (ab : Int) (p : Option PyFloat)
    (h : priceIsFalsy p = true) :
    chop_data s df ab p = chop_data s df ab (some (s.underlyingPrice.getD PyFloat.nan)) ∧
    (s.underlyingPrice = none → chop_data s df ab p = .ok df) := by
  constructor
  · cases hsp : s.underlyingPrice with
    | none =>
      simp only [chop_data, h]
      simp [priceIsFalsy, hsp]
    | some v =>
      cases v with
      | nan =>
        simp only [chop_data, h]
        simp [priceIsFalsy, hsp]
      | num q =>
        by_cases hq : q = 0 <;>
          (simp only [chop_data, h]; simp [priceIsFalsy, hsp, hq])
  · intro hsp
    simp only [chop_data, h]
    simp [priceIsFalsy, hsp]

/-- Witness for C10: an explicit `0.0` price on a session with no snapshot is
replaced by NaN and the frame comes back unchanged. -/
theorem chop_data_falsy_fallback_witness :
    priceIsFalsy (some (PyFloat.num 0)) = true ∧
    chop_data chopSession chopTable7 2 (some (PyFloat.num 0))
      = chop_data chopSession chopTable7 2
          (some (chopSession.underlyingPrice.getD PyFloat.nan)) ∧
    chop_data chopSession chopTable7 2 (some (PyFloat.num 0)) = .ok chopTable7 :=
  ⟨rfl, (chop_data_falsy_fallback chopSession chopTable7 2 (some (PyFloat.num 0)) rfl).1,
    (chop_data_falsy_fallback chopSession chopTable7 2 (some (PyFloat.num 0)) rfl).2 rfl⟩

/-- C7: the row-cell parsing rule — a `neg_arrow`-marked cell "1,234" parses
to −1234.0; a plain "N/A" cell parses to NaN; a plain "12.5" cell parses to
12.5; the comma is a thousands separator also on the plain path ("1,234"
gives 1234); and in general a negative-marked cell is negated after the
numeric parse, falling back to NaN when the text is not numeric. -/
theorem cell_parsing_rule :
    parseCellValue ⟨"1,234", true⟩ = .f (.num (-1234)) ∧
    parseCellValue ⟨"N/A", false⟩ = .f .nan ∧
    parseCellValue ⟨"12.5", false⟩ = .f (.num (mkRat 25 2)) ∧
    parseCellValue ⟨"1,234", false⟩ = .f (.num 1234) ∧
    (∀ c : RawCell, c.negArrow = true → ∀ q : ℚ,
      pyFloatOfString (stripCommas c.text) = some q → parseCellValue c = .f (.num (-q))) ∧
    (∀ c : RawCell, c.negArrow = true →
      pyFloatOfString (stripCommas c.text) = none → parseCellValue c = .f .nan) := by
  refine ⟨by decide, by decide, by decide, by decide, ?_, ?_⟩
  · intro c hneg q hq
    obtain ⟨t, na⟩ := c
    simp at hneg
    subst hneg
    simp [parseCellValue, _parse_row_values, hq, textParserCell]
  · intro c hneg hq
    obtain ⟨t, na⟩ := c
    simp at hneg
    subst hneg
    simp [parseCellValue, _parse_row_values, hq, textParserCell]

/-- Witness for C7's general conjunct: the negative-marked cell "2,5" parses
to 25 after comma removal and is negated to −25. -/
theorem cell_parsing_rule_witness :
    (RawCell.mk "2,5" true).negArrow = true ∧
    pyFloatOfString (stripCommas "2,5") = some 25 ∧
    parseCellValue ⟨"2,5", true⟩ = CellVal.f (.num (-25)) :=
  ⟨rfl, by decide, cell_parsing_rule.2.2.2.2.1 ⟨"2,5", true⟩ rfl 25 (by decide)⟩

theorem cacheOrFetch_ok_frameAttrs (cur : Clock) (env : Fetcher) (s s1 : Session)
    (tn : String) (e : PyDate) (ts : List RawTable)
    (h : cacheOrFetchTables cur env s tn e = (s1, .ok ts)) : s1.frameAttrs = s.frameAttrs := by
  unfold cacheOrFetchTables at h
  split at h
  · injection h with h1 h2
    rw [← h1]
  · exact (get_option_tables_ok cur env s s1 e ts h).2.2

/-- C5 (amended): on every successful chain-accessor call the processed frame
is stored under the month/year-qualified attribute name; the side-only
attribute (`calls`/`puts`) is additionally set if and only if the requested
(parsed) month and year equal the import-time current month and year —
otherwise the side-only attribute is left exactly as it was. -/
theorem option_data_stored_names
    (cur : Clock) (env : Fetcher) (s : Session) (month year : Option Int)
    (expiry : Option PyDate) (n : String) (y1 m1 : Int) (e1 : PyDate)
    (htp : _try_parse_dates cur year month expiry = .ok (y1, m1, e1))
    (h : (_get_option_data cur env s month year expiry n).2.isOk = true) :
    lookupAttr (_get_option_data cur env s month year expiry n).1.frameAttrs
        (qualifiedName n m1 y1)
      = exceptToOption (_get_option_data cur env s month year expiry n).2 ∧
    ((m1 = cur.month ∧ y1 = cur.year) →
      lookupAttr (_get_option_data cur env s month year expiry n).1.frameAttrs n
        = exceptToOption (_get_option_data cur env s month year expiry n).2) ∧
    (¬(m1 = cur.month ∧ y1 = cur.year) →
      lookupAttr (_get_option_data cur env s month year expiry n).1.frameAttrs n
        = lookupAttr s.frameAttrs n) := by
  simp only [_get_option_data, htp] at h ⊢
  cases hco : cacheOrFetchTables cur env s (tablesName m1 y1) e1 with
  | mk s1 r =>
    cases r with
    | error err =>
      rw [hco] at h
      simp [Except.isOk, Except.toBool] at h
    | ok ts =>
      rw [hco] at h
      dsimp only at h ⊢
      cases hfin : finishOptionData cur s1 m1 y1 n ts with
      | mk s2 r2 =>
        cases r2 with
        | error err =>
          rw [hfin] at h
          simp [Except.isOk, Except.toBool] at h
        | ok f =>
          dsimp only [exceptToOption]
          have hfr := finish_ok_frames cur s1 s2 m1 y1 n ts f hfin
          have hfr1 := cacheOrFetch_ok_frameAttrs cur env s s1 (tablesName m1 y1) e1 ts hco
          refine ⟨?_, ?_, ?_⟩
          · rw [hfr]
            exact lookupAttr_setAttr_self _ _ _
          · rintro ⟨hm, hy⟩
            rw [hfr]
            have hcond : (m1 == cur.month && y1 == cur.year) = true := by
              simp [hm, hy]
            rw [hcond]
            simp only [if_true]
            rw [lookupAttr_setAttr_ne _ _ _ _ (name_ne_qualifiedName n m1 y1)]
            exact lookupAttr_setAttr_self _ _ _
          · intro hnc
            rw [hfr]
            have hcond : (m1 == cur.month && y1 == cur.year) = false := by
              rcases Decidable.not_and_iff_or_not.mp hnc with hm | hy
              · simp [hm]
              · simp [hy]
            rw [hcond]
            simp only [Bool.false_eq_true, if_false]
            rw [lookupAttr_setAttr_ne _ _ _ _ (name_ne_qualifiedName n m1 y1), hfr1]


/-- C5 (counterexample): a successful call for June 2014 on a session whose
import-time clock reads October 2026 stores the frame under `calls0614` but
leaves the side-only `calls` attribute unset — the claim's "always also
stores it under a side-only name" fails for a non-current expiry. -/
theorem side_attr_not_set_for_noncurrent_month :
    (_get_option_data wClock wEnv (Session.init "ACME") (some 6) (some 2014) none "calls").2.isOk
      = true ∧
    lookupAttr (_get_option_data wClock wEnv (Session.init "ACME") (some 6) (some 2014)
      none "calls").1.frameAttrs "calls" = none ∧
    lookupAttr (_get_option_data wClock wEnv (Session.init "ACME") (some 6) (some 2014)
        none "calls").1.frameAttrs (qualifiedName "calls" 6 2014)
      = exceptToOption (_get_option_data wClock wEnv (Session.init "ACME") (some 6) (some 2014)
        none "calls").2 := by
  refine ⟨by decide, by decide, by decide⟩

/-- Witness for C5 (amended): a current-month call stores the frame under
both the qualified and the side-only attribute names. -/
theorem option_data_stored_names_witness :
    _try_parse_dates wClockMay14 (some 2014) (some 5) none = .ok (2014, 5, ⟨2014, 5, 1⟩) ∧
    (_get_option_data wClockMay14 wEnv (Session.init "ACME") (some 5) (some 2014)
      none "puts").2.isOk = true ∧
    lookupAttr (_get_option_data wClockMay14 wEnv (Session.init "ACME") (some 5) (some 2014)
        none "puts").1.frameAttrs (qualifiedName "puts" 5 2014)
      = exceptToOption (_get_option_data wClockMay14 wEnv (Session.init "ACME") (some 5)
        (some 2014) none "puts").2 ∧
    lookupAttr (_get_option_data wClockMay14 wEnv (Session.init "ACME") (some 5) (some 2014)
        none "puts").1.frameAttrs "puts"
      = exceptToOption (_get_option_data wClockMay14 wEnv (Session.init "ACME") (some 5)
        (some 2014) none "puts").2 :=
  ⟨by decide, by decide,
   (option_data_stored_names wClockMay14 wEnv (Session.init "ACME") (some 5) (some 2014)
     none "puts" 2014 5 ⟨2014, 5, 1⟩ (by decide) (by decide)).1,
   (option_data_stored_names wClockMay14 wEnv (Session.init "ACME") (some 5) (some 2014)
     none "puts" 2014 5 ⟨2014, 5, 1⟩ (by decide) (by decide)).2.1 ⟨rfl, rfl⟩⟩


/-- C6 (counterexample): for a `BRK-B` session and the option symbol
`BRKB140517C00100000` that Yahoo actually lists for that underlying, the
source computes `IsNonstandard = false` (it strips the hyphen from the
session's symbol: root `BRKB` equals `BRK-B`.replace('-','')), while the
claim's predicate — hyphens stripped from the decoded root, compared against
the raw session symbol — says `true`. -/
theorem isNonstandard_strips_session_symbol_not_root :
    _process_data "BRK-B" .nan .nan "call" brkFrame0
      = .ok { colNames := [.s "Root", .s "IsNonstandard", .s "Underlying",
               .s "Underlying_Price", .s "Quote_Time"],
              rows := [{ strike := .f (.num 100), expiry := .d ⟨2014, 5, 17⟩, type := "call",
                         symbol := .s "BRKB140517C00100000", root := .s "BRKB",
                         isNonstandard := false, underlying := "BRK-B",
                         underlyingPrice := .nan, quoteTime := .nan, cells := [] }] } ∧
    isNonstandardSpec "BRK-B" "BRKB140517C00100000" = true := by
  refine ⟨by decide, by decide⟩

/-- C6 (amended): for every post-processed option row whose Symbol cell is a
string, IsNonstandard is true if and only if the decoded root differs from
the session's underlying symbol with its hyphens removed (the source strips
separators from the session symbol, not from the root). -/
theorem process_data_isNonstandard_of_root
    (sessSymbol : String) (up : PyFloat) (qt : QuoteVal) (ty : String) (f0 : Frame0)
    (fr : Frame) (r : ProcRow) (v : String)
    (hok : _process_data sessSymbol up qt ty f0 = .ok fr)
    (hr : r ∈ fr.rows) (hs : r.symbol = .s v) :
    r.isNonstandard = decide (rootOfSym v ≠ removeDashes sessSymbol) := by
  unfold _process_data at hok
  simp only [bind, Except.bind] at hok
  cases hsym : findCol f0.header "Symbol" with
  | none => rw [hsym] at hok; cases hok
  | some symIdx =>
    rw [hsym] at hok
    dsimp only at hok
    cases hmm : f0.rows.mapM (fun r =>
        to_datetime6 (((svalFromCell (r.getD symIdx (.f .nan))).slice 0 (-9)).sliceFrom (-6))) with
    | error e => rw [hmm] at hok; cases hok
    | ok es =>
      rw [hmm] at hok
      dsimp only at hok
      cases hstr : findCol f0.header "Strike" with
      | none => rw [hstr] at hok; cases hok
      | some strikeIdx =>
        rw [hstr] at hok
        dsimp only at hok
        injection hok with hok
        rw [← hok] at hr
        dsimp only at hr
        obtain ⟨p, hp, hrr⟩ := List.mem_map.mp hr
        subst hrr
        have hs2 : p.1.getD symIdx (.f .nan) = .s v := by
          simpa [mkProcRow] using hs
        exact mkProcRow_isNonstandard sessSymbol up qt ty symIdx strikeIdx p.1 p.2 v hs2

/-- Witness for C6 (amended): an `AAPL` row processed end to end. -/
theorem process_data_isNonstandard_of_root_witness :
    _process_data "AAPL" PyFloat.nan QuoteVal.nan "put" aaplFrame0 = .ok aaplFrame ∧
    aaplRow ∈ aaplFrame.rows ∧
    aaplRow.symbol = .s "AAPL140517P00100000" ∧
    aaplRow.isNonstandard
      = decide (rootOfSym "AAPL140517P00100000" ≠ removeDashes "AAPL") :=
  ⟨by decide, by simp [aaplFrame], rfl,
   process_data_isNonstandard_of_root "AAPL" PyFloat.nan QuoteVal.nan "put" aaplFrame0
     aaplFrame aaplRow "AAPL140517P00100000" (by decide) (by simp [aaplFrame]) rfl⟩

/-- C8 (counterexample): a fetched page on which the quote-time lookup finds
no matching element, but whose quote-ticker element is present with
non-numeric text, makes the chain request raise `ValueError` from `float()` —
only `IndexError` is caught — instead of degrading the snapshot to
`(nan, nan)` as the claim states for every page with a missing quote
element. -/
theorem parse_page_malformed_ticker_raises :
    c8Page.rtqTime = [] ∧
    (_parse_option_page_from_yahoo wClock (Session.init "T") c8Page).2
      = .error (.valueError "could not convert string to float: N/A") := by
  refine ⟨rfl, by decide⟩

/-- C8 (amended): for every fetched page that has at least one table, if the
quote-ticker lookup finds no matching element — or the ticker parses as a
float and the quote-time lookup finds no matching element — the failed
lookup's `IndexError` is caught, the session's snapshot is set to
`(nan, nan)`, and the page's tables are returned so the request proceeds
without raising. -/
theorem parse_page_missing_quote_elements_degrade
    (cur : Clock) (s : Session) (p : Page)
    (hne : p.tables ≠ [])
    (h : p.rtqTicker = [] ∨
      (∃ e rest c crest t q, p.rtqTicker = e :: rest ∧ e.children = c :: crest ∧
        c.text = some t ∧ pyFloatOfString t = some q ∧ p.rtqTime = [])) :
    _parse_option_page_from_yahoo cur s p
      = ({ s with underlyingPrice := some .nan, quoteTime := some .nan }, .ok p.tables) := by
  have hlen : (p.tables.length == 0) = false := by
    simp [List.length_eq_zero, hne]
  have hgp : _get_underlying_price cur p = .error (.indexError "list index out of range") := by
    rcases h with h | ⟨e, rest, c, crest, t, q, h1, h2, h3, h4, h5⟩
    · simp [_get_underlying_price, h, bind, Except.bind]
    · simp [_get_underlying_price, h1, h2, h3, h4, h5, bind, Except.bind]
  unfold _parse_option_page_from_yahoo
  dsimp only
  rw [hlen]
  simp [hgp]

/-- Witness for C8 (amended): a one-table page with no quote-ticker element
degrades the snapshot and returns the tables. -/
theorem parse_page_missing_quote_elements_degrade_witness :
    c8PageNoTicker.tables ≠ [] ∧ c8PageNoTicker.rtqTicker = [] ∧
    _parse_option_page_from_yahoo wClock (Session.init "T") c8PageNoTicker
      = ({ Session.init "T" with underlyingPrice := some .nan, quoteTime := some .nan },
         .ok c8PageNoTicker.tables) :=
  ⟨by decide, rfl,
   parse_page_missing_quote_elements_degrade wClock (Session.init "T") c8PageNoTicker
     (by decide) (Or.inl rfl)⟩
